import Mathlib

/-!
Verification of the ClawPrint client bindings (Python SDK under
`sdks/python/clawprint/` and the LangChain adapter under
`integrations/langchain-community/`), as a shallow embedding in Lean.

Machine-level conventions of the embedding:
* Parsed JSON documents are the inductive `Json`; Python `dict`s appear as
  `Json.obj` (an association list in insertion order; CPython dicts have
  unique keys, which this model does not need to assume for the theorems
  below).
* Raising an exception is returning `Except.error`; the network is an oracle
  `Transport` mapping the outgoing request descriptor to what `requests`
  would deliver (a response, or a transport-level exception).
* Python truthiness of optional strings / JSON values is made explicit
  (`strTruthy`, `truthyJson`).
-/

namespace ClawPrintModel

/-- A parsed JSON value, as produced by `requests.Response.json()`. -/
inductive Json where
  | null
  | bool (b : Bool)
  | num (n : Int)
  | str (s : String)
  | arr (elems : List Json)
  | obj (fields : List (String × Json))

/-- A single-quote character, used by Python `repr` of strings. -/
def sq : String := String.singleton (Char.ofNat 39)

mutual

/-- Python `repr` of a parsed-JSON value (string element escaping elided;
no theorem below evaluates it on strings needing escapes). -/
def pyRepr : Json → String
  | .null => "None"
  | .bool true => "True"
  | .bool false => "False"
  | .num n => toString n
  | .str s => sq ++ s ++ sq
  | .arr l => "[" ++ String.intercalate ", " (pyReprList l) ++ "]"
  | .obj fs => "\x7b" ++ String.intercalate ", " (pyReprFields fs) ++ "\x7d"

def pyReprList : List Json → List String
  | [] => []
  | j :: rest => pyRepr j :: pyReprList rest

def pyReprFields : List (String × Json) → List String
  | [] => []
  | (k, v) :: rest => (sq ++ k ++ sq ++ ": " ++ pyRepr v) :: pyReprFields rest

end

/-- Python `str()` of a parsed-JSON value (for containers `str` equals
`repr`, and container elements are rendered with `repr`). -/
def pyStr : Json → String
  | .str s => s
  | j => pyRepr j

/-- Python truthiness of a parsed-JSON value. -/
def truthyJson : Json → Bool
  | .null => false
  | .bool b => b
  | .num n => n != 0
  | .str s => s != ""
  | .arr l => !l.isEmpty
  | .obj fs => !fs.isEmpty

/-- Truthiness of an optional string (`None` and `""` are falsy). -/
def strTruthy : Option String → Bool
  | none => false
  | some s => s != ""

/-- Python `a or b` on optional strings (`a` when truthy, else `b`);
models `api_key or os.environ.get("CLAWPRINT_API_KEY")`. -/
def pyOrStr (a b : Option String) : Option String :=
  match a with
  | some s => if s = "" then b else some s
  | none => b

/-- Characters Python `str.strip()` removes (ASCII whitespace). -/
def isPySpace (c : Char) : Bool :=
  c == ' ' || c == '\t' || c == '\n' || c == '\r' || c.toNat == 11 || c.toNat == 12

/-- `s.strip()` is empty: every character is whitespace. -/
def pyIsBlank (s : String) : Bool :=
  s.data.all isPySpace

/-- `base_url.rstrip("/")`. -/
def pyRstripSlash (s : String) : String :=
  String.mk ((s.data.reverse.dropWhile (fun c => c == '/')).reverse)

/-- Hex digit for percent-encoding (uppercase, as `urllib.parse.quote`). -/
def hexDigit (n : Nat) : Char :=
  if n < 10 then Char.ofNat (48 + n) else Char.ofNat (65 + n - 10)

/-- `%XX` encoding of one byte. -/
def byteHex (b : Nat) : String :=
  "%" ++ String.singleton (hexDigit (b / 16)) ++ String.singleton (hexDigit (b % 16))

/-- Unreserved characters `urllib.parse.quote` leaves intact with `safe=""`. -/
def isUnreservedChar (c : Char) : Bool :=
  c.isAlphanum || c == '-' || c == '_' || c == '.' || c == '~'

/-- `HTTPClient.encode_path_segment`: `quote(segment, safe="")`. -/
def encodePathSegment (s : String) : String :=
  s.data.foldl
    (fun acc c =>
      if isUnreservedChar c then acc ++ String.singleton c
      else acc ++ String.join (((String.singleton c).toUTF8.toList.map (fun b => byteHex b.toNat))))
    ""

/-! ## Response envelope (`clawprint/types.py`) -/

/-- The value space after `types._wrap`: scalars pass through, lists map the
wrapping over their elements, and dicts become `_APIObject` instances which
keep both the raw `_data` dict and the per-key wrapped attributes that
`__init__` installs with `object.__setattr__`. -/
inductive WValue where
  | null
  | bool (b : Bool)
  | num (n : Int)
  | str (s : String)
  | list (elems : List WValue)
  | api (data : List (String × Json)) (attrs : List (String × WValue))

mutual

/-- `types._wrap`: recursively wrap dicts in `_APIObject` for dot access. -/
def wrap : Json → WValue
  | .null => .null
  | .bool b => .bool b
  | .num n => .num n
  | .str s => .str s
  | .arr l => .list (wrapList l)
  | .obj fs => .api fs (wrapFields fs)

def wrapList : List Json → List WValue
  | [] => []
  | j :: rest => wrap j :: wrapList rest

/-- The attribute table `_APIObject.__init__` builds: one wrapped attribute
per field of the input dict. -/
def wrapFields : List (String × Json) → List (String × WValue)
  | [] => []
  | (k, v) :: rest => (k, wrap v) :: wrapFields rest

end

/-- One step of a structural path into a JSON document: an object field
name, or a list index. -/
inductive PathStep where
  | field (name : String)
  | index (i : Nat)

/-- Follow a path of field names / list indices through a raw JSON value. -/
def Json.getPath : Json → List PathStep → Option Json
  | j, [] => some j
  | .obj fs, .field k :: rest =>
    match fs.lookup k with
    | some v => v.getPath rest
    | none => none
  | .arr l, .index i :: rest =>
    match l[i]? with
    | some v => v.getPath rest
    | none => none
  | _, _ :: _ => none

/-- Follow the same path through a wrapped value, but by attribute access
(field names read the envelope's attribute table). -/
def WValue.getPath : WValue → List PathStep → Option WValue
  | w, [] => some w
  | .api _ attrs, .field k :: rest =>
    match attrs.lookup k with
    | some v => v.getPath rest
    | none => none
  | .list l, .index i :: rest =>
    match l[i]? with
    | some v => v.getPath rest
    | none => none
  | _, _ :: _ => none

/-! ## Error values (`clawprint/exceptions.py`) -/

/-- The value carried by a raised `ClawPrintError` (or subclass): message,
optional HTTP status, optional machine code, optional parsed body.  `code`
and `body` hold raw JSON values, as the Python attributes do. -/
structure ClawPrintError where
  message : String
  status : Option Nat
  code : Option Json
  body : Option Json

/-- `AuthenticationError(method)`: fixed code `auth_required`, message built
from the invoked method's name. -/
def authenticationError (method : String) : ClawPrintError :=
  ClawPrintError.mk
    ("API key required for " ++ method ++ "(). Pass api_key to ClawPrint() or set the CLAWPRINT_API_KEY env var.")
    none (some (Json.str "auth_required")) none

/-- `ValidationError(message)`: fixed code `validation_error`. -/
def validationError (message : String) : ClawPrintError :=
  ClawPrintError.mk message none (some (Json.str "validation_error")) none

/-! ## HTTP transport helper (`clawprint/http.py`) -/

/-- `requests.Response.ok`: true iff `raise_for_status()` would not raise,
i.e. the status code is outside `[400, 600)`. -/
def respOk (status : Nat) : Bool :=
  decide (status < 400) || decide (600 ≤ status)

/-- Drop query parameters whose value is `None`
(`{k: v for k, v in params.items() if v is not None}`). -/
def stripNoneParams (ps : List (String × Option Json)) : List (String × Json) :=
  ps.filterMap (fun kv => kv.2.map (fun v => (kv.1, v)))

/-- The outgoing request as handed to `requests.Session.request` (an empty
`params` list is passed as `None`, which sends the same request). -/
structure RequestDescriptor where
  method : String
  url : String
  params : List (String × Json)
  json_body : Option Json
  headers : List (String × String)

/-- What the network layer delivers for one request: a response whose body
either parsed as JSON (`some`) or did not (`none`), or one of the three
`requests` exception classes `http.py` catches. -/
inductive TransportResult where
  | response (status : Nat) (body : Option Json)
  | connectionFailure (excText : String)
  | timeoutFailure
  | requestFailure (excText : String)

/-- The network oracle: what `requests` does with a given outgoing request. -/
def Transport : Type := RequestDescriptor → TransportResult

/-- Transport state: configured key, normalized base URL, timeout seconds. -/
structure HTTPClient where
  api_key : Option String
  base_url : String
  timeout : Nat

/-- `HTTPClient.__init__`: stores the key and timeout, strips trailing
slashes from the base URL. -/
def HTTPClient.init (api_key : Option String) (base_url : String) (timeout : Nat) : HTTPClient :=
  HTTPClient.mk api_key (pyRstripSlash base_url) timeout

/-- `HTTPClient._headers`: attach `Authorization: Bearer <key>` only when
the request is authenticated and a (truthy) key is configured. -/
def HTTPClient.headersFor (c : HTTPClient) (authenticated : Bool) : List (String × String) :=
  if authenticated && strTruthy c.api_key then
    [("Authorization", "Bearer " ++ c.api_key.getD "")]
  else
    []

/-- `HTTPClient._handle_response`: parse-failure of the body is tolerated;
`resp.ok` selects success (return parsed body, or `{}` when unparsable)
versus raising a `ClawPrintError` built from whatever the API returned
(`if body and isinstance(body, dict)` reads the `error`/`message`/`code`
fields; the raised message is `str(...)` of the chosen value). -/
def handleResponse (status : Nat) (body : Option Json) : Except ClawPrintError Json :=
  if respOk status then
    match body with
    | none => .ok (Json.obj [])
    | some b => .ok b
  else
    match body with
    | some (Json.obj fs) =>
      if fs.isEmpty then
        .error (ClawPrintError.mk (pyStr (Json.str "API request failed")) (some status) none body)
      else
        .error (ClawPrintError.mk
          (pyStr (match fs.lookup "error" with
                  | some v => v
                  | none =>
                    match fs.lookup "message" with
                    | some v => v
                    | none => Json.str "API request failed"))
          (some status)
          (fs.lookup "code")
          body)
    | _ => .error (ClawPrintError.mk (pyStr (Json.str "API request failed")) (some status) none body)

/-- The request `HTTPClient.request` builds before sending: URL from the
base URL and path, `None`-valued query parameters stripped, headers from
`_headers(authenticated)`. -/
def HTTPClient.descriptor (c : HTTPClient) (method path : String)
    (params : List (String × Option Json)) (json_body : Option Json)
    (authenticated : Bool) : RequestDescriptor :=
  RequestDescriptor.mk method (c.base_url ++ path) (stripNoneParams params)
    json_body (c.headersFor authenticated)

/-- `HTTPClient.request`: build the request, send it, map the three caught
`requests` exceptions to coded `ClawPrintError`s, and otherwise hand the
response to `_handle_response`. -/
def HTTPClient.request (c : HTTPClient) (method path : String)
    (params : List (String × Option Json)) (json_body : Option Json)
    (authenticated : Bool) (t : Transport) : Except ClawPrintError Json :=
  match t (c.descriptor method path params json_body authenticated) with
  | .response status body => handleResponse status body
  | .connectionFailure excText =>
    .error (ClawPrintError.mk ("Connection error: " ++ excText) none (some (Json.str "connection_error")) none)
  | .timeoutFailure =>
    .error (ClawPrintError.mk ("Request timed out after " ++ toString c.timeout ++ "s") none (some (Json.str "timeout")) none)
  | .requestFailure excText =>
    .error (ClawPrintError.mk ("Request failed: " ++ excText) none (some (Json.str "request_error")) none)

/-! ## Public client (`clawprint/client.py`) -/

/-- Client state: the effective key and the transport it constructs. -/
structure ClawPrint where
  api_key : Option String
  http : HTTPClient

/-- `ClawPrint.__init__`: `self.api_key = api_key or os.environ.get("CLAWPRINT_API_KEY")`,
then an `HTTPClient` sharing that key.  `env` is the environment-provided
value, `none` when the variable is unset. -/
def ClawPrint.init (api_key env : Option String) (base_url : String) (timeout : Nat) : ClawPrint :=
  ClawPrint.mk (pyOrStr api_key env) (HTTPClient.init (pyOrStr api_key env) base_url timeout)

/-- `ClawPrint._require_auth`: raise `AuthenticationError(method_name)`
immediately when no (truthy) API key is configured. -/
def ClawPrint.requireAuth (c : ClawPrint) (methodName : String) : Except ClawPrintError Unit :=
  if strTruthy c.api_key then .ok () else .error (authenticationError methodName)

/-- `ClawPrint._require`: raise `ValidationError` when the value is `None`,
or is a string that is blank after stripping. -/
def pyRequire (name : String) (value : Option Json) : Except ClawPrintError Unit :=
  match value with
  | none => .error (validationError (sq ++ name ++ sq ++ " is required and cannot be empty."))
  | some (Json.str s) =>
    if pyIsBlank s then
      .error (validationError (sq ++ name ++ sq ++ " is required and cannot be empty."))
    else .ok ()
  | some _ => .ok ()

/-- The query-parameter dict `ClawPrint.search` builds: all eight optional
filters, `None` when the caller left one unset. -/
def searchParams (q domain protocol max_cost min_verification sort limit offset : Option Json) :
    List (String × Option Json) :=
  [("q", q), ("domain", domain), ("protocol", protocol), ("max_cost", max_cost),
   ("min_verification", min_verification), ("sort", sort), ("limit", limit), ("offset", offset)]

/-- `ClawPrint.search`: no validation, unauthenticated GET of
`/v1/agents/search`, result wrapped in a `SearchResponse` envelope. -/
def ClawPrint.search (c : ClawPrint)
    (q domain protocol max_cost min_verification sort limit offset : Option Json)
    (t : Transport) : Except ClawPrintError WValue :=
  (c.http.request "GET" "/v1/agents/search"
    (searchParams q domain protocol max_cost min_verification sort limit offset)
    none false t).map wrap

/-- `ClawPrint.update`: `_require_auth("update")`, then `_require("handle")`,
then at least one field, then an authenticated PATCH of the agent card. -/
def ClawPrint.update (c : ClawPrint) (handle : String) (fields : List (String × Json))
    (t : Transport) : Except ClawPrintError WValue :=
  match c.requireAuth "update" with
  | .error e => .error e
  | .ok () =>
    match pyRequire "handle" (some (Json.str handle)) with
    | .error e => .error e
    | .ok () =>
      if fields.isEmpty then
        .error (validationError "At least one field is required for update.")
      else
        (c.http.request "PATCH" ("/v1/agents/" ++ encodePathSegment handle)
          [] (some (Json.obj fields)) true t).map wrap

/-- `ClawPrint.report`: `_require_auth("report")`, the four required handles
and strings, then `rating` (when given) must satisfy `1 <= rating <= 5`,
optional fields appended to the body, authenticated POST of
`/v1/transactions/report`. -/
def ClawPrint.report (c : ClawPrint)
    (provider_handle requester_handle protocol outcome : String)
    (rating : Option Int) (external_tx_id : Option String)
    (response_time_ms : Option Int) (cost_actual : Option Json)
    (t : Transport) : Except ClawPrintError WValue :=
  match c.requireAuth "report" with
  | .error e => .error e
  | .ok () =>
    match pyRequire "provider_handle" (some (Json.str provider_handle)) with
    | .error e => .error e
    | .ok () =>
      match pyRequire "requester_handle" (some (Json.str requester_handle)) with
      | .error e => .error e
      | .ok () =>
        match pyRequire "protocol" (some (Json.str protocol)) with
        | .error e => .error e
        | .ok () =>
          match pyRequire "outcome" (some (Json.str outcome)) with
          | .error e => .error e
          | .ok () =>
            let base : List (String × Json) :=
              [("provider_handle", Json.str provider_handle),
               ("requester_handle", Json.str requester_handle),
               ("protocol", Json.str protocol),
               ("outcome", Json.str outcome)]
            match (match rating with
                   | some r =>
                     if 1 ≤ r ∧ r ≤ 5 then .ok (base ++ [("rating", Json.num r)])
                     else .error (validationError "rating must be between 1 and 5.")
                   | none => .ok base : Except ClawPrintError (List (String × Json))) with
            | .error e => .error e
            | .ok body1 =>
              let body2 := body1 ++ (match external_tx_id with
                                     | some x => [("external_tx_id", Json.str x)]
                                     | none => [])
              let body3 := body2 ++ (match response_time_ms with
                                     | some n => [("response_time_ms", Json.num n)]
                                     | none => [])
              let body4 := body3 ++ (match cost_actual with
                                     | some v => [("cost_actual", v)]
                                     | none => [])
              (c.http.request "POST" "/v1/transactions/report"
                [] (some (Json.obj body4)) true t).map wrap

/-- `ClawPrint.scan`: `_require_auth("scan")`, `_require("content")`, then an
authenticated POST of `/v1/security/scan`. -/
def ClawPrint.scan (c : ClawPrint) (content : String) (t : Transport) :
    Except ClawPrintError WValue :=
  match c.requireAuth "scan" with
  | .error e => .error e
  | .ok () =>
    match pyRequire "content" (some (Json.str content)) with
    | .error e => .error e
    | .ok () =>
      (c.http.request "POST" "/v1/security/scan"
        [] (some (Json.obj [("content", Json.str content)])) true t).map wrap

/-! ## LangChain adapter client
(`langchain_community/tools/clawprint/_client.py`) -/

/-- JSON escaping of one string for `json.dumps` (quote and backslash;
control-character escapes elided — no theorem evaluates those). -/
def jsonEscape (s : String) : String :=
  s.data.foldl
    (fun acc c =>
      if c == '"' then acc ++ "\\\""
      else if c == '\\' then acc ++ "\\\\"
      else acc ++ String.singleton c)
    ""

mutual

/-- `json.dumps(value)` with default separators. -/
def jsonDumps : Json → String
  | .null => "null"
  | .bool true => "true"
  | .bool false => "false"
  | .num n => toString n
  | .str s => "\"" ++ jsonEscape s ++ "\""
  | .arr l => "[" ++ String.intercalate ", " (jsonDumpsList l) ++ "]"
  | .obj fs => "\x7b" ++ String.intercalate ", " (jsonDumpsFields fs) ++ "\x7d"

def jsonDumpsList : List Json → List String
  | [] => []
  | j :: rest => jsonDumps j :: jsonDumpsList rest

def jsonDumpsFields : List (String × Json) → List String
  | [] => []
  | (k, v) :: rest => ("\"" ++ jsonEscape k ++ "\": " ++ jsonDumps v) :: jsonDumpsFields rest

end

/-- Python `a or b or c` over the looked-up values: first truthy value,
else the fallback. -/
def firstTruthy (candidates : List (Option Json)) (fallback : Json) : Json :=
  match candidates with
  | [] => fallback
  | some v :: rest => if truthyJson v then v else firstTruthy rest fallback
  | none :: rest => firstTruthy rest fallback

/-- Outcome of `ClawPrintClient._handle_response` in the adapter: a success
value (`None` for 204), a raised `ClawPrintAPIError(status, detail)`, or a
propagated `ValueError` from `resp.json()` on an ok response whose body is
not JSON (that call is not guarded by any `try`). -/
inductive LCResult where
  | ok (value : Option Json)
  | apiError (status : Nat) (detail : Json)
  | valueErrorPropagated

/-- The adapter's `_handle_response`: on `resp.ok`, return `None` for 204
else `resp.json()` (whose parse failure propagates); otherwise build the
error detail from the body's `detail` / `message` fields or `json.dumps` of
the body, falling back to `resp.text[:500]` when the body is unparsable or
not a dict (the `except Exception` arm). -/
def lcHandleResponse (status : Nat) (body : Option Json) (text : String) : LCResult :=
  if respOk status then
    if status = 204 then .ok none
    else
      match body with
      | some b => .ok (some b)
      | none => .valueErrorPropagated
  else
    match body with
    | some (Json.obj fs) =>
      .apiError status
        (firstTruthy [fs.lookup "detail", fs.lookup "message"] (Json.str (jsonDumps (Json.obj fs))))
    | _ => .apiError status (Json.str (text.take 500))

/-- Adapter client state (`ClawPrintClient.__init__` mirrors the SDK:
`api_key or os.environ.get("CLAWPRINT_API_KEY")`, `base_url.rstrip("/")`). -/
structure LCClawPrintClient where
  api_key : Option String
  base_url : String
  timeout : Nat

def LCClawPrintClient.init (api_key env : Option String) (base_url : String) (timeout : Nat) :
    LCClawPrintClient :=
  LCClawPrintClient.mk (pyOrStr api_key env) (pyRstripSlash base_url) timeout

/-! ## Exception class hierarchy (for the error-family claim) -/

/-- The Python exception classes the bindings define or raise, plus the
`requests` exception classes that can escape the adapter (whose session
calls are unguarded).  `RequestsExceptionClass` stands for
`requests.RequestException`; the `IOError`/`OSError` links between it and
`Exception` are elided, which only shortens the chain and adds no
binding-defined base. -/
inductive PyClass where
  | PyException
  | ClawPrintErrorClass
  | AuthenticationErrorClass
  | ValidationErrorClass
  | ClawPrintAPIErrorClass
  | RequestsExceptionClass
  | RequestsConnectionErrorClass
deriving DecidableEq

/-- Each class's declared base, read off the `class ...` headers
(`exceptions.py`, the adapter's `_client.py`, and `requests`). -/
def superclass : PyClass → Option PyClass
  | .PyException => none
  | .ClawPrintErrorClass => some .PyException
  | .AuthenticationErrorClass => some .ClawPrintErrorClass
  | .ValidationErrorClass => some .ClawPrintErrorClass
  | .ClawPrintAPIErrorClass => some .PyException
  | .RequestsExceptionClass => some .PyException
  | .RequestsConnectionErrorClass => some .RequestsExceptionClass

/-- The method-resolution chain of each class (its ancestors, itself
included), spelled out; `ancestors_follows_superclass` below checks it
against `superclass`. -/
def ancestors : PyClass → List PyClass
  | .PyException => [.PyException]
  | .ClawPrintErrorClass => [.ClawPrintErrorClass, .PyException]
  | .AuthenticationErrorClass => [.AuthenticationErrorClass, .ClawPrintErrorClass, .PyException]
  | .ValidationErrorClass => [.ValidationErrorClass, .ClawPrintErrorClass, .PyException]
  | .ClawPrintAPIErrorClass => [.ClawPrintAPIErrorClass, .PyException]
  | .RequestsExceptionClass => [.RequestsExceptionClass, .PyException]
  | .RequestsConnectionErrorClass =>
    [.RequestsConnectionErrorClass, .RequestsExceptionClass, .PyException]

/-- `issubclass` (reflexive-transitive). -/
def isSubclassOf (c d : PyClass) : Bool :=
  (ancestors c).contains d

/-- The classes both arguments descend from. -/
def commonAncestors (c d : PyClass) : List PyClass :=
  (ancestors c).filter (fun x => (ancestors d).contains x)

/-- The spec's four error kinds. -/
inductive ErrorKind where
  | validation
  | authRequired
  | transport
  | apiGeneral

/-- The exception class each SDK raise site uses: `ValidationError` and
`AuthenticationError` in `client.py`, `ClawPrintError` for both the
transport wrappers and the non-ok responses in `http.py`. -/
def sdkRaisedClass : ErrorKind → PyClass
  | .validation => .ValidationErrorClass
  | .authRequired => .AuthenticationErrorClass
  | .transport => .ClawPrintErrorClass
  | .apiGeneral => .ClawPrintErrorClass

/-- The exception class the adapter's own raise sites use (`_headers` for
the missing-key case, `_handle_response` for non-ok responses); the adapter
has no raise site of its own for the other two kinds. -/
def adapterRaisedClass : ErrorKind → Option PyClass
  | .validation => none
  | .authRequired => some .ClawPrintAPIErrorClass
  | .transport => none
  | .apiGeneral => some .ClawPrintAPIErrorClass

/-- What reaches the adapter's caller for each error kind: the class of the
adapter's own raise site where it has one, and for transport failures the
raw `requests` exception — the adapter wraps its `self._session.get/post`
calls in no `try`, so e.g. `requests.ConnectionError` propagates as-is. -/
def adapterPropagatedClass : ErrorKind → Option PyClass
  | .validation => none
  | .authRequired => some .ClawPrintAPIErrorClass
  | .transport => some .RequestsConnectionErrorClass
  | .apiGeneral => some .ClawPrintAPIErrorClass

/-! ## Helper lemmas -/

/-- Claim C1: on a client constructed with neither an explicit `api_key`
nor an environment-provided key, each authenticated operation — `update`,
`report`, `scan` — returns the `AuthenticationError` for its own name, for
every transport oracle and all arguments (so the outcome never depends on
the transport: no request is issued); that error carries code
`auth_required` and a message naming the invoked operation. -/
theorem claim_C1_auth_required_preflight (base_url : String) (timeout : Nat) (t : Transport) :
    (∀ (handle : String) (fields : List (String × Json)),
        (ClawPrint.init none none base_url timeout).update handle fields t
          = Except.error (authenticationError "update"))
    ∧ (∀ provider requester protocol outcome rating ext rtms cost,
        (ClawPrint.init none none base_url timeout).report provider requester protocol outcome
            rating ext rtms cost t
          = Except.error (authenticationError "report"))
    ∧ (∀ content, (ClawPrint.init none none base_url timeout).scan content t
          = Except.error (authenticationError "scan"))
    ∧ (∀ m, (authenticationError m).code = some (Json.str "auth_required"))
    ∧ (∀ m, (authenticationError m).message
          = "API key required for " ++ m
            ++ "(). Pass api_key to ClawPrint() or set the CLAWPRINT_API_KEY env var.") :=
  ⟨fun _ _ => rfl, fun _ _ _ _ _ _ _ _ => rfl, fun _ => rfl, fun _ => rfl, fun _ => rfl⟩

/-- Claim C4: a query parameter appears in the outgoing request exactly when
its value is set, and then with that value unchanged: membership in the
stripped parameter list is equivalent to set-membership in the input; the
built request descriptor uses exactly the stripped list; and each of the
eight optional `search` filters looks up to exactly the caller's optional
value. -/
theorem claim_C4_param_stripping :
    (∀ (ps : List (String × Option Json)) (k : String) (v : Json),
        (k, v) ∈ stripNoneParams ps ↔ (k, some v) ∈ ps)
    ∧ (∀ (c : HTTPClient) (method path : String) (ps : List (String × Option Json))
        (body : Option Json) (auth : Bool),
        (c.descriptor method path ps body auth).params = stripNoneParams ps)
    ∧ (∀ q domain protocol max_cost min_verification sort limit offset,
        ((stripNoneParams (searchParams q domain protocol max_cost min_verification sort limit offset)).lookup "q" = q)
        ∧ ((stripNoneParams (searchParams q domain protocol max_cost min_verification sort limit offset)).lookup "domain" = domain)
        ∧ ((stripNoneParams (searchParams q domain protocol max_cost min_verification sort limit offset)).lookup "protocol" = protocol)
        ∧ ((stripNoneParams (searchParams q domain protocol max_cost min_verification sort limit offset)).lookup "max_cost" = max_cost)
        ∧ ((stripNoneParams (searchParams q domain protocol max_cost min_verification sort limit offset)).lookup "min_verification" = min_verification)
        ∧ ((stripNoneParams (searchParams q domain protocol max_cost min_verification sort limit offset)).lookup "sort" = sort)
        ∧ ((stripNoneParams (searchParams q domain protocol max_cost min_verification sort limit offset)).lookup "limit" = limit)
        ∧ ((stripNoneParams (searchParams q domain protocol max_cost min_verification sort limit offset)).lookup "offset" = offset)) := by
  refine ⟨?_, fun _ _ _ _ _ _ => rfl, ?_⟩
  · intro ps k v
    constructor
    · intro h
      simp [stripNoneParams] at h
      obtain ⟨a, b, hm, hb, ha⟩ := h
      subst hb; subst ha
      exact hm
    · intro hm
      simp [stripNoneParams]
      exact ⟨k, some v, hm, rfl, rfl⟩
  · intro q d p mc mv s l o
    rcases q with _ | qv <;> rcases d with _ | dv <;> rcases p with _ | pv <;>
      rcases mc with _ | mcv <;> rcases mv with _ | mvv <;> rcases s with _ | sv <;>
      rcases l with _ | lv <;> rcases o with _ | ov <;>
      exact ⟨rfl, rfl, rfl, rfl, rfl, rfl, rfl, rfl⟩

/-- Claim C7 fails as stated: constructing with the (supplied) constructor
argument `api_key=""` while the environment provides a key yields the
environment key, not the constructor argument — Python's `api_key or
os.environ.get(...)` falls back on any falsy argument. -/
theorem claim_C7_counterexample :
    (ClawPrint.init (some "") (some "cp_env_key") "https://clawprint.io" 30).api_key
        = some "cp_env_key"
    ∧ (some "cp_env_key" : Option String) ≠ some "" := by
  exact ⟨rfl, by decide⟩

/-- Claim C7, amended: when the supplied constructor argument is a
non-empty (truthy) string, it takes precedence over a configured
environment value — in both the SDK client and the adapter client. -/
theorem claim_C7_amended (s : String) (env : Option String) (base_url : String)
    (timeout : Nat) (h : s ≠ "") :
    (ClawPrint.init (some s) env base_url timeout).api_key = some s
    ∧ (LCClawPrintClient.init (some s) env base_url timeout).api_key = some s := by
  constructor <;> simp [ClawPrint.init, LCClawPrintClient.init, pyOrStr, h]

/-- Witness for C7 (amended): a concrete non-empty constructor key wins
over a configured environment key. -/
theorem claim_C7_witness :
    (ClawPrint.init (some "cp_explicit") (some "cp_env_key") "https://clawprint.io" 30).api_key
        = some "cp_explicit"
    ∧ (LCClawPrintClient.init (some "cp_explicit") (some "cp_env_key") "https://clawprint.io" 30).api_key
        = some "cp_explicit" := by
  have h := claim_C7_amended "cp_explicit" (some "cp_env_key") "https://clawprint.io" 30 (by decide)
  exact ⟨h.1, h.2⟩

/-- Claim C8: on an authenticated client with all four required `report`
fields non-blank, a supplied rating outside `[1, 5]` yields the validation
error for every transport oracle (no request issued) — in particular for
ratings 0 and 6 — while a rating in `[1, 5]` (in particular 1 and 5)
proceeds to the request and succeeds given a success response. -/
theorem claim_C8_rating_validation (c : ClawPrint) (hauth : strTruthy c.api_key = true)
    (ph rh pr oc : String)
    (hph : pyIsBlank ph = false) (hrh : pyIsBlank rh = false)
    (hpr : pyIsBlank pr = false) (hoc : pyIsBlank oc = false) :
    (∀ (r : Int) (t : Transport), ¬(1 ≤ r ∧ r ≤ 5) →
        c.report ph rh pr oc (some r) none none none t
          = Except.error (validationError "rating must be between 1 and 5."))
    ∧ (∀ t : Transport, c.report ph rh pr oc (some 0) none none none t
          = Except.error (validationError "rating must be between 1 and 5."))
    ∧ (∀ t : Transport, c.report ph rh pr oc (some 6) none none none t
          = Except.error (validationError "rating must be between 1 and 5."))
    ∧ (∀ r : Int, 1 ≤ r ∧ r ≤ 5 →
        c.report ph rh pr oc (some r) none none none
            (fun _ => TransportResult.response 200 (some (Json.obj [])))
          = Except.ok (wrap (Json.obj []))) := by
  have ha : ∀ (r : Int) (t : Transport), ¬(1 ≤ r ∧ r ≤ 5) →
      c.report ph rh pr oc (some r) none none none t
        = Except.error (validationError "rating must be between 1 and 5.") := by
    intro r t hr
    simp [ClawPrint.report, ClawPrint.requireAuth, hauth, pyRequire, hph, hrh, hpr, hoc, hr]
  refine ⟨ha, fun t => ha 0 t (by decide), fun t => ha 6 t (by decide), fun r hr => ?_⟩
  simp [ClawPrint.report, ClawPrint.requireAuth, hauth, pyRequire, hph, hrh, hpr, hoc, hr,
    HTTPClient.request, HTTPClient.descriptor, handleResponse, respOk, Except.map]

/-- Witness for C8: a concrete authenticated client with concrete fields —
rating 0 is rejected with the validation error and rating 1 succeeds
against a mocked 200 response. -/
theorem claim_C8_witness :
    ((ClawPrint.init (some "cp_key") none "https://clawprint.io" 30).report
        "prov" "req" "acp" "completed" (some 0) none none none
        (fun _ => TransportResult.response 200 (some (Json.obj [])))
      = Except.error (validationError "rating must be between 1 and 5."))
    ∧ ((ClawPrint.init (some "cp_key") none "https://clawprint.io" 30).report
        "prov" "req" "acp" "completed" (some 1) none none none
        (fun _ => TransportResult.response 200 (some (Json.obj [])))
      = Except.ok (wrap (Json.obj []))) := by
  have h := claim_C8_rating_validation
    (ClawPrint.init (some "cp_key") none "https://clawprint.io" 30) (by decide)
    "prov" "req" "acp" "completed" (by decide) (by decide) (by decide) (by decide)
  exact ⟨h.2.1 _, h.2.2.2 1 (by decide)⟩

/-- Internal consistency: the spelled-out ancestor chains follow the
declared `superclass` relation. -/
theorem ancestors_follows_superclass (c : PyClass) :
    ancestors c = c :: (match superclass c with
                        | some p => ancestors p
                        | none => []) := by
  cases c <;> rfl

/-- Claim C9 fails as stated: there is no single base error type covering
everything the bindings raise.  The adapter's `ClawPrintAPIError` derives
from `Exception`, not from the SDK's `ClawPrintError` (their only common
ancestor is `Exception` itself), and the adapter's transport failures
propagate as raw `requests` exceptions that sit outside both
binding-defined families. -/
theorem claim_C9_counterexample :
    isSubclassOf PyClass.ClawPrintAPIErrorClass PyClass.ClawPrintErrorClass = false
    ∧ isSubclassOf PyClass.ClawPrintErrorClass PyClass.ClawPrintAPIErrorClass = false
    ∧ commonAncestors PyClass.ClawPrintErrorClass PyClass.ClawPrintAPIErrorClass
        = [PyClass.PyException]
    ∧ adapterPropagatedClass ErrorKind.transport = some PyClass.RequestsConnectionErrorClass
    ∧ isSubclassOf PyClass.RequestsConnectionErrorClass PyClass.ClawPrintErrorClass = false
    ∧ isSubclassOf PyClass.RequestsConnectionErrorClass PyClass.ClawPrintAPIErrorClass = false :=
  ⟨rfl, rfl, rfl, rfl, rfl, rfl⟩

/-- Claim C9, amended: within each binding, the errors it raises itself are
variants of that binding's single base: the SDK's validation,
authentication, transport and general API errors are all (subclasses of)
`ClawPrintError`, and the adapter's own raise sites all use (a subclass of)
`ClawPrintAPIError` — so a caller of one binding can catch its base broadly
or match a variant narrowly.  Across the two bindings no common base below
`Exception` exists, and adapter transport failures escape both families
(see the counterexample). -/
theorem claim_C9_error_family :
    (∀ k, isSubclassOf (sdkRaisedClass k) PyClass.ClawPrintErrorClass = true)
    ∧ (∀ k c, adapterRaisedClass k = some c →
        isSubclassOf c PyClass.ClawPrintAPIErrorClass = true) := by
  constructor
  · intro k; cases k <;> rfl
  · intro k c h
    cases k <;> simp [adapterRaisedClass] at h <;> subst h <;> rfl

/-- Witness for C9: the authentication-required raise sites of both
bindings land inside their respective families. -/
theorem claim_C9_witness :
    isSubclassOf (sdkRaisedClass ErrorKind.authRequired) PyClass.ClawPrintErrorClass = true
    ∧ isSubclassOf PyClass.ClawPrintAPIErrorClass PyClass.ClawPrintAPIErrorClass = true :=
  ⟨claim_C9_error_family.1 ErrorKind.authRequired,
   claim_C9_error_family.2 ErrorKind.authRequired PyClass.ClawPrintAPIErrorClass rfl⟩

/-- Claim C10: the SDK transport helper, called directly with
`authenticated=True` on a client configured without a key, does not fail:
the built request carries no `Authorization` header at all, the transport
is consulted and its response alone determines the outcome, and a 200
response yields success. -/
theorem claim_C10_transport_no_auth_check (base_url : String) (timeout : Nat)
    (method path : String) (ps : List (String × Option Json)) (body : Option Json) :
    ((HTTPClient.init none base_url timeout).descriptor method path ps body true).headers = []
    ∧ (((HTTPClient.init none base_url timeout).descriptor method path ps body true).headers.lookup
        "Authorization" = none)
    ∧ (∀ (st : Nat) (rb : Option Json),
        (HTTPClient.init none base_url timeout).request method path ps body true
            (fun _ => TransportResult.response st rb)
          = handleResponse st rb)
    ∧ (∀ j : Json,
        (HTTPClient.init none base_url timeout).request method path ps body true
            (fun _ => TransportResult.response 200 (some j))
          = Except.ok j) :=
  ⟨rfl, rfl, fun _ _ => rfl, fun _ => rfl⟩

/-- Claim C2 fails as stated: a 304 response is non-2xx, yet `resp.ok`
(`status < 400`) is true for it, so the transport helper returns the parsed
body as a success instead of raising an API error. -/
theorem claim_C2_counterexample :
    handleResponse 304 (some (Json.obj [("error", Json.str "boom")]))
      = Except.ok (Json.obj [("error", Json.str "boom")]) :=
  rfl

/-- Claim C2, amended: for every response whose status is not ok in the
`requests` sense — i.e. in `[400, 600)` — the helper raises an API error
whose status is the HTTP status, whose body is the full parsed body (absent
when unparsable), whose message comes from a non-empty JSON-object body's
`error` field, else its `message` field, else the fallback
`"API request failed"` (also used for unparsable, non-object, or empty
bodies), and whose code is the body's `code` field (absent otherwise). -/
theorem claim_C2_amended (st : Nat) (body : Option Json) (h1 : 400 ≤ st) (h2 : st < 600) :
    ∃ e : ClawPrintError,
      handleResponse st body = Except.error e
      ∧ e.status = some st
      ∧ e.body = body
      ∧ (∀ fs, body = some (Json.obj fs) → fs ≠ [] →
          e.code = fs.lookup "code"
          ∧ (∀ v, fs.lookup "error" = some v → e.message = pyStr v)
          ∧ (∀ v, fs.lookup "error" = none → fs.lookup "message" = some v → e.message = pyStr v)
          ∧ (fs.lookup "error" = none → fs.lookup "message" = none →
              e.message = "API request failed"))
      ∧ ((∀ fs, body = some (Json.obj fs) → fs = []) →
          e.message = "API request failed" ∧ e.code = none) := by
  have hok : respOk st = false := by
    simp only [respOk, Bool.or_eq_false_iff, decide_eq_false_iff_not, not_lt]
    omega
  cases body with
  | none =>
    refine ⟨ClawPrintError.mk "API request failed" (some st) none none,
      by simp [handleResponse, hok, pyStr], rfl, rfl, by simp, fun _ => ⟨rfl, rfl⟩⟩
  | some b =>
    cases b with
    | obj fs =>
      by_cases hfs : fs.isEmpty
      · have hnil : fs = [] := by simpa [List.isEmpty_iff] using hfs
        subst hnil
        refine ⟨ClawPrintError.mk "API request failed" (some st) none (some (Json.obj [])),
          by simp [handleResponse, hok, pyStr], rfl, rfl, ?_, fun _ => ⟨rfl, rfl⟩⟩
        intro fs' h hne
        simp only [Option.some.injEq, Json.obj.injEq] at h
        exact absurd h.symm hne
      · have hne : fs ≠ [] := by simpa [List.isEmpty_iff] using hfs
        refine ⟨ClawPrintError.mk
            (pyStr (match fs.lookup "error" with
                    | some v => v
                    | none =>
                      match fs.lookup "message" with
                      | some v => v
                      | none => Json.str "API request failed"))
            (some st) (fs.lookup "code") (some (Json.obj fs)),
          by simp [handleResponse, hok, hfs, pyStr], rfl, rfl, ?_, ?_⟩
        · intro fs' h hne'
          have hfs' : fs = fs' := by
            simp only [Option.some.injEq, Json.obj.injEq] at h
            exact h
          subst hfs'
          refine ⟨rfl, ?_, ?_, ?_⟩
          · intro v hv
            simp [hv]
          · intro v hv hm
            simp [hv, hm]
          · intro hv hm
            simp [hv, hm, pyStr]
        · intro hall
          exact absurd (hall fs rfl) hne
    | null =>
      refine ⟨ClawPrintError.mk "API request failed" (some st) none (some Json.null),
        by simp [handleResponse, hok, pyStr], rfl, rfl, by simp, fun _ => ⟨rfl, rfl⟩⟩
    | bool bb =>
      refine ⟨ClawPrintError.mk "API request failed" (some st) none (some (Json.bool bb)),
        by simp [handleResponse, hok, pyStr], rfl, rfl, by simp, fun _ => ⟨rfl, rfl⟩⟩
    | num n =>
      refine ⟨ClawPrintError.mk "API request failed" (some st) none (some (Json.num n)),
        by simp [handleResponse, hok, pyStr], rfl, rfl, by simp, fun _ => ⟨rfl, rfl⟩⟩
    | str s =>
      refine ⟨ClawPrintError.mk "API request failed" (some st) none (some (Json.str s)),
        by simp [handleResponse, hok, pyStr], rfl, rfl, by simp, fun _ => ⟨rfl, rfl⟩⟩
    | arr l =>
      refine ⟨ClawPrintError.mk "API request failed" (some st) none (some (Json.arr l)),
        by simp [handleResponse, hok, pyStr], rfl, rfl, by simp, fun _ => ⟨rfl, rfl⟩⟩

/-- Witness for C2 (amended): the spec's own example — status 404 with body
`{"detail": "Not found"}` — raises an error with status 404 and, since the
body has neither `error` nor `message`, the generic fallback message. -/
theorem claim_C2_witness :
    ∃ e : ClawPrintError,
      handleResponse 404 (some (Json.obj [("detail", Json.str "Not found")]))
          = Except.error e
        ∧ e.status = some 404
        ∧ e.message = "API request failed"
        ∧ e.body = some (Json.obj [("detail", Json.str "Not found")]) := by
  obtain ⟨e, he, hst, hb, hobj, hfall⟩ :=
    claim_C2_amended 404 (some (Json.obj [("detail", Json.str "Not found")]))
      (by decide) (by decide)
  obtain ⟨hcode, herr, hmsg, hf⟩ := hobj _ rfl (by simp)
  exact ⟨e, he, hst, hf rfl rfl, hb⟩

/-- Claim C3 fails as stated: in the adapter's client, a 200 response whose
body is not parsable JSON propagates the `resp.json()` parse error rather
than tolerating it, and a 204 yields `None`, not the empty mapping. -/
theorem claim_C3_counterexample :
    lcHandleResponse 200 none "" = LCResult.valueErrorPropagated
    ∧ lcHandleResponse 204 none "" = LCResult.ok none
    ∧ LCResult.ok none ≠ LCResult.ok (some (Json.obj [])) := by
  refine ⟨rfl, rfl, ?_⟩
  intro h
  injection h with h1
  cases h1

/-- Claim C3, amended: for every 2xx response, the SDK transport helper
succeeds — an unparsable body is tolerated and yields the empty mapping, a
parsed body is returned as-is; the adapter's client instead returns `None`
for status 204, returns the parsed body for other 2xx statuses, and
propagates the JSON parse error when a non-204 2xx body is unparsable. -/
theorem claim_C3_amended (st : Nat) (body : Option Json) (text : String)
    (h1 : 200 ≤ st) (h2 : st < 300) :
    handleResponse st body = Except.ok (body.getD (Json.obj []))
    ∧ (st = 204 → lcHandleResponse st body text = LCResult.ok none)
    ∧ (∀ b, body = some b → st ≠ 204 → lcHandleResponse st body text = LCResult.ok (some b))
    ∧ (body = none → st ≠ 204 → lcHandleResponse st body text = LCResult.valueErrorPropagated) := by
  have hok : respOk st = true := by
    simp only [respOk, Bool.or_eq_true, decide_eq_true_eq]
    left
    omega
  refine ⟨?_, ?_, ?_, ?_⟩
  · cases body <;> simp [handleResponse, hok]
  · intro h204
    subst h204
    simp [lcHandleResponse, hok]
  · intro b hb hne
    subst hb
    simp [lcHandleResponse, hok, hne]
  · intro hb hne
    subst hb
    simp [lcHandleResponse, hok, hne]

/-- Witness for C3 (amended): status 204 with an unparsable (empty) body —
the SDK helper returns the empty mapping and the adapter returns `None`. -/
theorem claim_C3_witness :
    handleResponse 204 none = Except.ok (Json.obj [])
    ∧ lcHandleResponse 204 none "" = LCResult.ok none := by
  obtain ⟨hsdk, hlc, _, _⟩ := claim_C3_amended 204 none "" (by decide) (by decide)
  exact ⟨hsdk, hlc rfl⟩

end ClawPrintModel
